import Mathlib

/-!
# Verification of the gitleaks repository-scanner orchestrator

Shallow embedding of `src/scan_repos.py`.  The script sequentially clones a
fixed list of repository URLs (`git clone --depth 1`, 300 s timeout), runs the
`gitleaks` binary on each successful clone (600 s timeout), parses the JSON
report it leaves behind, keeps running counters, and writes a final report.

The effects of the two child processes (exit code, report-file state, timeout,
raised exception) are inputs of the embedded functions: each Python
`subprocess.run` call is modelled by an outcome value supplied by the
environment, while the command line the script builds for it is part of the
function's result, so that theorems can speak about the exact invocation.
Python `int` counters are `Nat` (they only ever receive non-negative
increments), Python exception messages are modelled by the corresponding
CPython message strings, and `os.path.join` / `os.path.basename` /
`str.split('/')[-1]` are modelled on strings.
-/

namespace GitleaksScan

/-- A JSON value as produced by Python's `json.load`; numbers are modelled as
integers (a fractional number behaves identically everywhere this development
looks: it has no `len()` and is not a dict). -/
inductive Json where
  | null
  | bool (b : Bool)
  | num (n : Int)
  | str (s : String)
  | arr (elems : List Json)
  | obj (fields : List (String × Json))

/-- Python `len(v)` on the value `json.load` returned: defined for strings,
lists and dicts, a `TypeError` (modelled as `none`) otherwise. -/
def pyLen : Json → Option Nat
  | .str s => some s.length
  | .arr elems => some elems.length
  | .obj fields => some fields.length
  | _ => none

/-- The Python type name of a value, as it appears in CPython error messages. -/
def pyTypeName : Json → String
  | .null => "NoneType"
  | .bool _ => "bool"
  | .num _ => "int"
  | .str _ => "str"
  | .arr _ => "list"
  | .obj _ => "dict"

/-- `v.isObj` is true when `v` is a JSON object (a Python dict). -/
def Json.isObj : Json → Bool
  | .obj _ => true
  | _ => false

/-- Python `findings[:5]`: lists slice to their first five elements, strings
slice and then iterate as one-character strings, anything else raises a
`TypeError` (modelled as `Except.error` carrying the CPython message). -/
def pySlice5 : Json → Except String (List Json)
  | .arr elems => .ok (elems.take 5)
  | .str s => .ok ((s.toList.take 5).map fun c => .str (String.mk [c]))
  | .obj _ => .error "unhashable type: 'slice'"
  | v => .error ("'" ++ pyTypeName v ++ "' object is not subscriptable")

/-- CPython's message for `len(v)` on a value without a length. -/
def lenTypeErrorMsg (v : Json) : String :=
  "object of type '" ++ pyTypeName v ++ "' has no len()"

/-- CPython's message for `v.get(...)` on a value that is not a dict. -/
def getAttrErrorMsg (v : Json) : String :=
  "'" ++ pyTypeName v ++ "' object has no attribute 'get'"

/-- Python `dict.get key dflt` on the field list of a parsed JSON object
(`json.load` never yields duplicate keys, so first-match lookup is exact). -/
def jGet (fields : List (String × Json)) (key : String) (dflt : Json) : Json :=
  match fields.lookup key with
  | some v => v
  | none => dflt

/-- Python `str.split('/')` on the character list of a string: splits at every
slash, keeping empty segments, and yields at least one segment. -/
def splitOnSlash : List Char → List (List Char)
  | [] => [[]]
  | c :: cs =>
    let rest := splitOnSlash cs
    if c = '/' then [] :: rest
    else match rest with
      | [] => [[c]]
      | seg :: segs => (c :: seg) :: segs

/-- `repo_url.split('/')[-1]`, also `os.path.basename` of the paths the script
builds (they never end in a slash): the final `/`-separated segment. -/
def lastSegment (s : String) : String :=
  String.mk ((splitOnSlash s.data).getLastD [])

/-- `os.path.join a b`: `b` absolute wins, otherwise the components are joined
with a single separator (inserted unless `a` already ends in one). -/
def pathJoin (a b : String) : String :=
  if b.data.head? = some '/' then b
  else if a.data.getLast? = some '/' then a ++ b
  else a ++ "/" ++ b

/-- The fixed repository list `REPOSITORIES` from the top of the script. -/
def REPOSITORIES : List String :=
  ["https://github.com/AlwaysUbaid/AlgoHL",
   "https://github.com/AlwaysUbaid/hummingbot-ubaid",
   "https://github.com/AlwaysUbaid/MarketMakingMegaMachine",
   "https://github.com/AlwaysUbaid/market-making-gabrielee5",
   "https://github.com/AlwaysUbaid/avail-dune-analytics",
   "https://github.com/AlwaysUbaid/HyperCore-Wallet-Tracker"]

/-- One child-process command the orchestrator issues: the argument vector
passed to `subprocess.run` and the `timeout=` it is given (in seconds). -/
structure Command where
  argv : List String
  timeoutSecs : Nat
deriving DecidableEq

/-- The environment's response to one `subprocess.run(['git', 'clone', ...])`
call: the process completed (with an exit code and captured stderr), the
300 s timeout expired (`subprocess.TimeoutExpired`), or some other exception
was raised. -/
inductive CloneOutcome where
  | completed (returncode : Int) (stderrText : String)
  | timeout
  | exc (msg : String)

/-- What the scan stage finds at the report path after `subprocess.run`
returns: the file is absent, exists with size zero, exists but its content
fails JSON parsing (`json.JSONDecodeError`), or parses to a value `v`. -/
inductive ReportContent where
  | absent
  | empty
  | invalid (raw : String)
  | parsed (v : Json)

/-- The environment's response to one `subprocess.run(['gitleaks', ...])`
call: completed (with an exit code and the resulting report-file state), the
600 s timeout expired, or some other exception was raised. -/
inductive ScanOutcome where
  | completed (returncode : Int) (report : ReportContent)
  | timeout
  | exc (msg : String)

/-- The per-repository record built by `scan_repository` (the `result_data`
dict / the two failure dicts). -/
structure ScanResult where
  repo_name : String
  repo_url : String
  repo_path : String
  report_file : String
  findings : Json
  findings_count : Nat
  success : Bool
  error : Option String

/-- The mutable fields of `GitleaksScanner` that the scan loop touches:
`self.results`, `self.total_findings`, `self.repos_with_secrets`. -/
structure ScannerState where
  results : List ScanResult
  total_findings : Nat
  repos_with_secrets : Nat

/-- The scanner's state right after `__init__`. -/
def initState : ScannerState := ⟨[], 0, 0⟩

/-- One console line emitted by `scan_repository`, keeping the data the
`print` calls interpolate. -/
inductive OutLine where
  | scanning (repo_name : String)
  | secretsFound (repo_name : String) (count : Nat)
  | reportPath (path : String)
  | summaryHeader
  | findingEntry (ruleID description filePath line : Json)
  | moreFindings (remaining : Nat)
  | cleanRepo (repo_name : String)
  | errLine (msg : String)

/-- Is this line one `• rule: description (File: ..., Line: ...)` entry? -/
def OutLine.isEntry : OutLine → Bool
  | .findingEntry _ _ _ _ => true
  | _ => false

/-- Is this line the `... and k more findings` remainder line? -/
def OutLine.isMore : OutLine → Bool
  | .moreFindings _ => true
  | _ => false

/-- Is this line the `Clean: ... (no secrets found)` confirmation? -/
def OutLine.isClean : OutLine → Bool
  | .cleanRepo _ => true
  | _ => false

/-- The entry `print` in the `for finding in findings[:5]` loop: each field is
`finding.get(key, default)`. -/
def entryLine (fields : List (String × Json)) : OutLine :=
  .findingEntry (jGet fields "ruleID" (.str "Unknown"))
    (jGet fields "description" (.str "No description"))
    (jGet fields "file" (.str "Unknown file"))
    (jGet fields "startLine" (.str "Unknown line"))

/-- One iteration of the summary loop: a dict prints its entry, anything else
raises `AttributeError` on `.get`. -/
def formatFinding : Json → Except String OutLine
  | .obj fields => .ok (entryLine fields)
  | v => .error (getAttrErrorMsg v)

/-- `formatFinding` with the error collapsed into an error line; on dicts it
is the printed entry. -/
def fmtEntry (f : Json) : OutLine :=
  match formatFinding f with
  | .ok l => l
  | .error e => .errLine e

/-- Runs the summary loop left to right: the lines printed before any failure,
and the message of the first raised exception if one occurs. -/
def printFindings : List Json → List OutLine × Option String
  | [] => ([], none)
  | f :: fs =>
    match formatFinding f with
    | .error e => ([], some e)
    | .ok l =>
      let rest := printFindings fs
      (l :: rest.1, rest.2)

/-- The failure dict `scan_repository` returns from its `except` clauses:
`success=False`, empty findings, zero count, the exception's message. -/
def failData (repo_name repo_url repo_path report_file msg : String) : ScanResult :=
  { repo_name := repo_name, repo_url := repo_url, repo_path := repo_path,
    report_file := report_file, findings := .arr [], findings_count := 0,
    success := false, error := some msg }

/-- The tail of `scan_repository`'s `try` block once `findings` and
`findings_count` are known (lines 124-156 of the script): builds
`result_data`, prints either the secrets summary or the clean line, updates
the counters, and — if a print raises — falls into the generic
`except Exception` handler instead. -/
def scanCompletedBody (repo_name repo_url repo_path report_file : String)
    (findings : Json) (findings_count : Nat) (st : ScannerState) :
    ScanResult × ScannerState × List OutLine :=
  let result_data : ScanResult :=
    { repo_name := repo_name, repo_url := repo_url, repo_path := repo_path,
      report_file := report_file, findings := findings,
      findings_count := findings_count, success := true, error := none }
  if 0 < findings_count then
    let pre := [OutLine.secretsFound repo_name findings_count,
                OutLine.reportPath report_file, OutLine.summaryHeader]
    match pySlice5 findings with
    | .error e =>
      let msg := "Error scanning " ++ repo_name ++ ": " ++ e
      (failData repo_name repo_url repo_path report_file msg, st,
        pre ++ [OutLine.errLine msg])
    | .ok sliced =>
      match printFindings sliced with
      | (entries, some e) =>
        let msg := "Error scanning " ++ repo_name ++ ": " ++ e
        (failData repo_name repo_url repo_path report_file msg, st,
          pre ++ entries ++ [OutLine.errLine msg])
      | (entries, none) =>
        let more := if 5 < findings_count
          then [OutLine.moreFindings (findings_count - 5)] else []
        (result_data,
          { st with repos_with_secrets := st.repos_with_secrets + 1,
                    total_findings := st.total_findings + findings_count },
          pre ++ entries ++ more)
  else
    (result_data, st, [OutLine.cleanRepo repo_name])

/-- The result of one `scan_repository` call: the gitleaks command it issued,
the returned dict, the scanner state after it, and its console output. -/
structure ScanStep where
  cmd : Command
  result : ScanResult
  state : ScannerState
  output : List OutLine

/-- `GitleaksScanner.scan_repository`: derives the repo name and report path,
invokes gitleaks (outcome supplied by the environment), then classifies the
report file.  A missing, empty or unparseable report leaves
`findings = []`, `findings_count = 0`; a parsed value goes through `len` and
the summary printing, where a non-sized value or a non-dict finding raises
into the generic handler.  Timeout and exceptions return the failure dict. -/
def scan_repository (repo_path repo_url temp_dir : String)
    (outcome : ScanOutcome) (st : ScannerState) : ScanStep :=
  let repo_name := lastSegment repo_path
  let report_file := pathJoin temp_dir (repo_name ++ "_report.json")
  let cmd : Command :=
    { argv := ["gitleaks", "git", "--report-path", report_file,
               "--report-format", "json", "--no-banner", repo_path],
      timeoutSecs := 600 }
  match outcome with
  | .timeout =>
    let msg := "Timeout scanning " ++ repo_name
    ⟨cmd, failData repo_name repo_url repo_path report_file msg, st,
      [.scanning repo_name, .errLine msg]⟩
  | .exc e =>
    let msg := "Error scanning " ++ repo_name ++ ": " ++ e
    ⟨cmd, failData repo_name repo_url repo_path report_file msg, st,
      [.scanning repo_name, .errLine msg]⟩
  | .completed _ report =>
    match report with
    | .parsed v =>
      match pyLen v with
      | some n =>
        let body := scanCompletedBody repo_name repo_url repo_path report_file v n st
        ⟨cmd, body.1, body.2.1, OutLine.scanning repo_name :: body.2.2⟩
      | none =>
        let msg := "Error scanning " ++ repo_name ++ ": " ++ lenTypeErrorMsg v
        ⟨cmd, failData repo_name repo_url repo_path report_file msg, st,
          [.scanning repo_name, .errLine msg]⟩
    | _ =>
      let body := scanCompletedBody repo_name repo_url repo_path report_file (.arr []) 0 st
      ⟨cmd, body.1, body.2.1, OutLine.scanning repo_name :: body.2.2⟩

/-- The result of one `clone_repository` call: the git command it issued plus
the `(bool, str)` pair the Python function returns. -/
structure CloneStep where
  cmd : Command
  ok : Bool
  path : String

/-- `GitleaksScanner.clone_repository`: shallow-clones into
`temp_dir/<last URL segment>`; exit code 0 yields `(True, repo_path)`, a
non-zero exit, the 300 s timeout, or any exception yields `(False, "")`. -/
def clone_repository (repo_url temp_dir : String) (oc : CloneOutcome) : CloneStep :=
  let repo_name := lastSegment repo_url
  let repo_path := pathJoin temp_dir repo_name
  let cmd : Command :=
    { argv := ["git", "clone", "--depth", "1", repo_url, repo_path],
      timeoutSecs := 300 }
  match oc with
  | .completed rc _ => if rc = 0 then ⟨cmd, true, repo_path⟩ else ⟨cmd, false, ""⟩
  | .timeout => ⟨cmd, false, ""⟩
  | .exc _ => ⟨cmd, false, ""⟩

/-- The environment's responses for one repository: how its clone call and
(if reached) its scan call behave. -/
structure RepoEnv where
  cloneOutcome : CloneOutcome
  scanOutcome : ScanOutcome

/-- One iteration of the `for repo_url in REPOSITORIES` loop: clone, and on
failure `continue`; on success scan and append the result to
`self.results`. -/
def processRepo (temp_dir repo_url : String) (env : RepoEnv)
    (st : ScannerState) : ScannerState :=
  let c := clone_repository repo_url temp_dir env.cloneOutcome
  if c.ok then
    let s := scan_repository c.path repo_url temp_dir env.scanOutcome st
    { s.state with results := s.state.results ++ [s.result] }
  else st

/-- The whole repository loop of `run_scan`, one `(url, environment)` pair at
a time. -/
def scanLoop (temp_dir : String) : List (String × RepoEnv) → ScannerState → ScannerState
  | [], st => st
  | (repo_url, env) :: rest, st =>
    scanLoop temp_dir rest (processRepo temp_dir repo_url env st)

/-- `GitleaksScanner.check_dependencies`: true iff neither `gitleaks` nor
`git` is missing from the search path (`which` says where each lookup
succeeds). -/
def check_dependencies (which : String → Bool) : Bool :=
  (["gitleaks", "git"].filter (fun tool => !(which tool))).isEmpty

/-- `GitleaksScanner.run_scan`: returns False immediately when the dependency
check fails, otherwise runs the loop over `REPOSITORIES`, reports, and
returns True.  The boolean is the Python return value; the state is what
reporting reads. -/
def run_scan (which : String → Bool) (temp_dir : String)
    (envs : List RepoEnv) : Bool × ScannerState :=
  if check_dependencies which then
    (true, scanLoop temp_dir (REPOSITORIES.zip envs) initState)
  else
    (false, initState)

/-- How one whole invocation of `main` plays out: `run_scan` (and the
cleanup prompt) completes normally, or a `KeyboardInterrupt` reaches `main`'s
handler, or some other exception does. -/
inductive RunEvent where
  | completes (which : String → Bool) (temp_dir : String) (envs : List RepoEnv)
  | interrupted
  | crashed (msg : String)

/-- `main`: the process exit code for each way the run can end — `0 if
success else 1` on completion, `1` from the `KeyboardInterrupt` and generic
`except` handlers. -/
def mainExit : RunEvent → Nat
  | .completes which temp_dir envs => if (run_scan which temp_dir envs).1 then 0 else 1
  | .interrupted => 1
  | .crashed _ => 1

/-- The scanner command line as §6 of the spec words it: `scan <target>
--report-path <file> --report-format json` (arguments handed to the
secret-scanner binary).  Modelled from the spec for comparison with the
command the code actually builds. -/
def specScanArgs (target reportFile : String) : List String :=
  ["scan", target, "--report-path", reportFile, "--report-format", "json"]

/-- The counters agree with the recorded results: `total_findings` is the sum
of the `findings_count` fields and `repos_with_secrets` counts the results
with at least one finding. -/
def countersMatch (st : ScannerState) : Prop :=
  st.total_findings = (st.results.map ScanResult.findings_count).sum ∧
  st.repos_with_secrets = st.results.countP (fun r => decide (0 < r.findings_count))

/-- The console lines one `scan_repository` call prints. -/
def scanOutput (repo_path repo_url temp_dir : String) (outcome : ScanOutcome)
    (st : ScannerState) : List OutLine :=
  (scan_repository repo_path repo_url temp_dir outcome st).output

theorem append_ne_empty_left (a b : String) (h : 0 < a.length) : a ++ b ≠ "" := by
  intro hEq
  have hlen := congrArg String.length hEq
  rw [String.length_append] at hlen
  simp only [String.length_empty] at hlen
  omega

/-- The part of `scan_repository`'s `try` block after `findings` and
`findings_count` are computed never touches `self.results`, adds exactly the
returned `findings_count` to `self.total_findings`, bumps
`self.repos_with_secrets` exactly when that count is positive, and returns a
record whose `findings` has a Python length equal to its `findings_count`. -/
theorem scanCompletedBody_state (repo_name repo_url repo_path report_file : String)
    (findings : Json) (n : Nat) (st : ScannerState) (h : pyLen findings = some n) :
    (scanCompletedBody repo_name repo_url repo_path report_file findings n st).2.1.results
        = st.results ∧
    (scanCompletedBody repo_name repo_url repo_path report_file findings n st).2.1.total_findings
        = st.total_findings
            + (scanCompletedBody repo_name repo_url repo_path report_file findings n st).1.findings_count ∧
    (scanCompletedBody repo_name repo_url repo_path report_file findings n st).2.1.repos_with_secrets
        = st.repos_with_secrets
            + (if 0 < (scanCompletedBody repo_name repo_url repo_path report_file findings n st).1.findings_count
               then 1 else 0) ∧
    pyLen (scanCompletedBody repo_name repo_url repo_path report_file findings n st).1.findings
        = some (scanCompletedBody repo_name repo_url repo_path report_file findings n st).1.findings_count := by
  unfold scanCompletedBody
  by_cases h0 : 0 < n
  · simp only [if_pos h0]
    cases hs : pySlice5 findings with
    | error e => simp [failData, pyLen]
    | ok sliced =>
      simp only [hs]
      split <;> split <;> simp_all [failData, pyLen]
  · simp only [if_neg h0]
    simp [h, h0]
    omega

/-- `scan_repository` never touches `self.results`, adds exactly the returned
`findings_count` to `self.total_findings`, bumps `self.repos_with_secrets`
exactly when that count is positive, and returns a record whose `findings`
has a Python length equal to its `findings_count`. -/
theorem scan_repository_state (repo_path repo_url temp_dir : String)
    (outcome : ScanOutcome) (st : ScannerState) :
    (scan_repository repo_path repo_url temp_dir outcome st).state.results = st.results ∧
    (scan_repository repo_path repo_url temp_dir outcome st).state.total_findings
        = st.total_findings
            + (scan_repository repo_path repo_url temp_dir outcome st).result.findings_count ∧
    (scan_repository repo_path repo_url temp_dir outcome st).state.repos_with_secrets
        = st.repos_with_secrets
            + (if 0 < (scan_repository repo_path repo_url temp_dir outcome st).result.findings_count
               then 1 else 0) ∧
    pyLen (scan_repository repo_path repo_url temp_dir outcome st).result.findings
        = some (scan_repository repo_path repo_url temp_dir outcome st).result.findings_count := by
  cases outcome with
  | timeout => simp [scan_repository, failData, pyLen]
  | exc e => simp [scan_repository, failData, pyLen]
  | completed rc report =>
    cases report with
    | parsed v =>
      cases v with
      | null => simp [scan_repository, failData, pyLen]
      | bool b => simp [scan_repository, failData, pyLen]
      | num k => simp [scan_repository, failData, pyLen]
      | str s =>
        simpa [scan_repository] using
          scanCompletedBody_state (lastSegment repo_path) repo_url repo_path
            (pathJoin temp_dir (lastSegment repo_path ++ "_report.json")) (.str s) s.length st rfl
      | arr elems =>
        simpa [scan_repository] using
          scanCompletedBody_state (lastSegment repo_path) repo_url repo_path
            (pathJoin temp_dir (lastSegment repo_path ++ "_report.json")) (.arr elems) elems.length st rfl
      | obj fields =>
        simpa [scan_repository] using
          scanCompletedBody_state (lastSegment repo_path) repo_url repo_path
            (pathJoin temp_dir (lastSegment repo_path ++ "_report.json")) (.obj fields) fields.length st rfl
    | absent =>
      simpa [scan_repository] using
        scanCompletedBody_state (lastSegment repo_path) repo_url repo_path
          (pathJoin temp_dir (lastSegment repo_path ++ "_report.json")) (.arr []) 0 st rfl
    | empty =>
      simpa [scan_repository] using
        scanCompletedBody_state (lastSegment repo_path) repo_url repo_path
          (pathJoin temp_dir (lastSegment repo_path ++ "_report.json")) (.arr []) 0 st rfl
    | invalid raw =>
      simpa [scan_repository] using
        scanCompletedBody_state (lastSegment repo_path) repo_url repo_path
          (pathJoin temp_dir (lastSegment repo_path ++ "_report.json")) (.arr []) 0 st rfl

/-- One loop iteration preserves the agreement between the counters and the
recorded results. -/
theorem processRepo_counters (temp_dir repo_url : String) (env : RepoEnv)
    (st : ScannerState) (h : countersMatch st) :
    countersMatch (processRepo temp_dir repo_url env st) := by
  unfold processRepo
  dsimp only
  split
  · obtain ⟨h1, h2, h3, _⟩ := scan_repository_state
      (clone_repository repo_url temp_dir env.cloneOutcome).path repo_url temp_dir
      env.scanOutcome st
    obtain ⟨ht, hr⟩ := h
    constructor
    · simp [h1, h2, ht]
    · simp [h1, h3, hr, List.countP_append, List.countP_cons]
  · exact h

/-- The whole repository loop preserves the counter agreement. -/
theorem scanLoop_counters (temp_dir : String) (items : List (String × RepoEnv))
    (st : ScannerState) (h : countersMatch st) :
    countersMatch (scanLoop temp_dir items st) := by
  induction items generalizing st with
  | nil => simpa [scanLoop] using h
  | cons hd tl ih =>
    obtain ⟨repo_url, env⟩ := hd
    simp only [scanLoop]
    exact ih _ (processRepo_counters _ _ _ _ h)

/-- C4: for every ScanResult ever produced by `scan_repository` — success or
failure, any report-file content — the `findings_count` field equals the
Python length of its `findings` value. -/
theorem findings_count_eq_len (repo_path repo_url temp_dir : String)
    (outcome : ScanOutcome) (st : ScannerState) :
    pyLen (scan_repository repo_path repo_url temp_dir outcome st).result.findings
      = some (scan_repository repo_path repo_url temp_dir outcome st).result.findings_count :=
  (scan_repository_state repo_path repo_url temp_dir outcome st).2.2.2

/-- C5: after all configured repositories have been processed (the state that
`generate_final_report` and `print_summary` read), `total_findings` equals the
sum of `findings_count` over the recorded results and `repos_with_secrets`
equals the number of recorded results with a positive `findings_count`, even
though both counters are maintained incrementally. -/
theorem counters_match_results (which : String → Bool) (temp_dir : String)
    (envs : List RepoEnv) :
    (run_scan which temp_dir envs).2.total_findings
        = ((run_scan which temp_dir envs).2.results.map ScanResult.findings_count).sum ∧
    (run_scan which temp_dir envs).2.repos_with_secrets
        = (run_scan which temp_dir envs).2.results.countP
            (fun r => decide (0 < r.findings_count)) := by
  have : countersMatch (run_scan which temp_dir envs).2 := by
    unfold run_scan
    by_cases hd : check_dependencies which
    · simp only [if_pos hd]
      exact scanLoop_counters _ _ _ ⟨rfl, rfl⟩
    · simp only [if_neg hd]
      exact ⟨rfl, rfl⟩
  exact this

/-- C7: the process exit code is 0 exactly on a completed run with the
dependency check passing — independently of what the repositories contained —
and 1 on dependency-check failure, on a `KeyboardInterrupt`, and on an
unexpected top-level exception. -/
theorem exit_code_cases :
    (∀ (which : String → Bool) (temp_dir : String) (envs : List RepoEnv),
      mainExit (.completes which temp_dir envs)
        = if check_dependencies which then 0 else 1) ∧
    mainExit .interrupted = 1 ∧
    (∀ msg, mainExit (.crashed msg) = 1) ∧
    (∀ (which : String → Bool) (temp_dir temp_dir' : String)
        (envs envs' : List RepoEnv),
      mainExit (.completes which temp_dir envs)
        = mainExit (.completes which temp_dir' envs')) := by
  refine ⟨?_, rfl, fun _ => rfl, ?_⟩
  · intro which temp_dir envs
    by_cases hd : check_dependencies which <;> simp [mainExit, run_scan, hd]
  · intro which temp_dir temp_dir' envs envs'
    by_cases hd : check_dependencies which <;> simp [mainExit, run_scan, hd]

/-- C9: two scan invocations that complete (no timeout, no exception) and
leave identical report-file contents produce identical outcomes — result,
counter updates, console output and issued command — regardless of the
scanner process's exit code. -/
theorem scan_ignores_exit_code (repo_path repo_url temp_dir : String)
    (rc rc' : Int) (report : ReportContent) (st : ScannerState) :
    scan_repository repo_path repo_url temp_dir (.completed rc report) st
      = scan_repository repo_path repo_url temp_dir (.completed rc' report) st := rfl

theorem timeout_msg_ne_empty (repo_name : String) :
    "Timeout scanning " ++ repo_name ≠ "" :=
  append_ne_empty_left _ _ (by decide)

theorem error_msg_ne_empty (repo_name tail : String) :
    "Error scanning " ++ repo_name ++ ": " ++ tail ≠ "" := by
  apply append_ne_empty_left
  rw [String.length_append, String.length_append]
  have h15 : 0 < "Error scanning ".length := by decide
  omega

/-- C1: a clone timeout, a non-zero exit code, or any other exception makes
`clone_repository` return `(False, "")`; the loop then records no ScanResult
for that URL, leaves `total_findings` and `repos_with_secrets` unchanged, and
continues with the next configured URL. -/
theorem clone_failure_skipped (repo_url temp_dir : String) (oc : CloneOutcome)
    (env : RepoEnv) (st : ScannerState) (rest : List (String × RepoEnv))
    (h : oc = .timeout ∨ (∃ e, oc = .exc e) ∨
         ∃ rc stderrText, oc = .completed rc stderrText ∧ rc ≠ 0) :
    (clone_repository repo_url temp_dir oc).ok = false ∧
    (clone_repository repo_url temp_dir oc).path = "" ∧
    (env.cloneOutcome = oc →
      processRepo temp_dir repo_url env st = st ∧
      scanLoop temp_dir ((repo_url, env) :: rest) st = scanLoop temp_dir rest st) := by
  have hc : clone_repository repo_url temp_dir oc =
      ⟨⟨["git", "clone", "--depth", "1", repo_url,
          pathJoin temp_dir (lastSegment repo_url)], 300⟩, false, ""⟩ := by
    rcases h with rfl | ⟨e, rfl⟩ | ⟨rc, s, rfl, hrc⟩
    · rfl
    · rfl
    · simp [clone_repository, hrc]
  refine ⟨by rw [hc], by rw [hc], fun he => ?_⟩
  have hp : processRepo temp_dir repo_url env st = st := by
    unfold processRepo
    dsimp only
    rw [he, hc]
    simp
  exact ⟨hp, by simp only [scanLoop, hp]⟩

theorem clone_failure_skipped_witness :
    ((CloneOutcome.timeout = CloneOutcome.timeout ∨
        (∃ e, CloneOutcome.timeout = CloneOutcome.exc e) ∨
        ∃ rc s, CloneOutcome.timeout = CloneOutcome.completed rc s ∧ rc ≠ 0) ∧
      (⟨CloneOutcome.timeout, ScanOutcome.timeout⟩ : RepoEnv).cloneOutcome
        = CloneOutcome.timeout) ∧
    (clone_repository "https://github.com/AlwaysUbaid/AlgoHL" "/tmp/ws"
        CloneOutcome.timeout).ok = false ∧
    processRepo "/tmp/ws" "https://github.com/AlwaysUbaid/AlgoHL"
        ⟨CloneOutcome.timeout, ScanOutcome.timeout⟩ initState = initState := by
  have h := clone_failure_skipped "https://github.com/AlwaysUbaid/AlgoHL" "/tmp/ws"
    CloneOutcome.timeout ⟨CloneOutcome.timeout, ScanOutcome.timeout⟩ initState []
    (Or.inl rfl)
  exact ⟨⟨Or.inl rfl, rfl⟩, h.1, (h.2.2 rfl).1⟩

/-- C2: when the scan invocation completes (no timeout, no exception) and the
report file is absent, has size zero, or fails JSON parsing, the result has
`success = true`, empty findings and `findings_count = 0`, the counters are
untouched, and all three malformed states give the very same outcome. -/
theorem malformed_report_zero_findings (repo_path repo_url temp_dir : String)
    (rc : Int) (raw : String) (report : ReportContent) (st : ScannerState)
    (h : report = .absent ∨ report = .empty ∨ report = .invalid raw) :
    (scan_repository repo_path repo_url temp_dir (.completed rc report) st).result.success
        = true ∧
    (scan_repository repo_path repo_url temp_dir (.completed rc report) st).result.findings
        = .arr [] ∧
    (scan_repository repo_path repo_url temp_dir (.completed rc report) st).result.findings_count
        = 0 ∧
    (scan_repository repo_path repo_url temp_dir (.completed rc report) st).state = st ∧
    scan_repository repo_path repo_url temp_dir (.completed rc report) st
      = scan_repository repo_path repo_url temp_dir (.completed rc .absent) st := by
  rcases h with rfl | rfl | rfl <;> exact ⟨rfl, rfl, rfl, rfl, rfl⟩

theorem malformed_report_zero_findings_witness :
    (ReportContent.empty = ReportContent.absent ∨
      ReportContent.empty = ReportContent.empty ∨
      ReportContent.empty = ReportContent.invalid "oops") ∧
    (scan_repository "/tmp/ws/AlgoHL" "https://github.com/AlwaysUbaid/AlgoHL" "/tmp/ws"
        (.completed 1 .empty) initState).result.success = true ∧
    (scan_repository "/tmp/ws/AlgoHL" "https://github.com/AlwaysUbaid/AlgoHL" "/tmp/ws"
        (.completed 1 .empty) initState).result.findings_count = 0 := by
  have h := malformed_report_zero_findings "/tmp/ws/AlgoHL"
    "https://github.com/AlwaysUbaid/AlgoHL" "/tmp/ws" 1 "oops" .empty initState
    (Or.inr (Or.inl rfl))
  exact ⟨Or.inr (Or.inl rfl), h.1, h.2.2.1⟩

/-- C3: when the clone succeeded and the scan invocation times out or raises,
the loop appends a ScanResult with `success = false`, a non-empty error
message, zero findings and an empty findings sequence, the counters stay
unchanged, and the run continues. -/
theorem scan_failure_recorded (temp_dir repo_url : String) (env : RepoEnv)
    (st : ScannerState)
    (hclone : (clone_repository repo_url temp_dir env.cloneOutcome).ok = true)
    (hscan : env.scanOutcome = .timeout ∨ ∃ e, env.scanOutcome = .exc e) :
    ∃ (r : ScanResult) (m : String),
      (processRepo temp_dir repo_url env st).results = st.results ++ [r] ∧
      r.success = false ∧ r.error = some m ∧ m ≠ "" ∧
      r.findings_count = 0 ∧ r.findings = .arr [] ∧
      (processRepo temp_dir repo_url env st).total_findings = st.total_findings ∧
      (processRepo temp_dir repo_url env st).repos_with_secrets
        = st.repos_with_secrets ∧
      ∀ rest, scanLoop temp_dir ((repo_url, env) :: rest) st
        = scanLoop temp_dir rest (processRepo temp_dir repo_url env st) := by
  unfold processRepo
  dsimp only
  rw [hclone]
  simp only [if_pos rfl]
  rcases hscan with he | ⟨e, he⟩
  · rw [he]
    exact ⟨_, _, rfl, rfl, rfl, timeout_msg_ne_empty _, rfl, rfl, rfl, rfl,
      fun rest => by simp only [scanLoop, processRepo, hclone, he]⟩
  · rw [he]
    exact ⟨_, _, rfl, rfl, rfl, error_msg_ne_empty _ _, rfl, rfl, rfl, rfl,
      fun rest => by simp only [scanLoop, processRepo, hclone, he]⟩

theorem scan_failure_recorded_witness :
    (clone_repository "https://github.com/AlwaysUbaid/AlgoHL" "/tmp/ws"
        (⟨CloneOutcome.completed 0 "", ScanOutcome.timeout⟩ : RepoEnv).cloneOutcome).ok
      = true ∧
    ((⟨CloneOutcome.completed 0 "", ScanOutcome.timeout⟩ : RepoEnv).scanOutcome
        = ScanOutcome.timeout ∨
      ∃ e, (⟨CloneOutcome.completed 0 "", ScanOutcome.timeout⟩ : RepoEnv).scanOutcome
        = ScanOutcome.exc e) ∧
    ∃ (r : ScanResult) (m : String),
      (processRepo "/tmp/ws" "https://github.com/AlwaysUbaid/AlgoHL"
          ⟨CloneOutcome.completed 0 "", ScanOutcome.timeout⟩ initState).results
        = initState.results ++ [r] ∧
      r.success = false ∧ r.error = some m ∧ m ≠ "" := by
  have h := scan_failure_recorded "/tmp/ws" "https://github.com/AlwaysUbaid/AlgoHL"
    ⟨CloneOutcome.completed 0 "", ScanOutcome.timeout⟩ initState rfl (Or.inl rfl)
  obtain ⟨r, m, h1, h2, h3, h4, _⟩ := h
  exact ⟨rfl, Or.inl rfl, r, m, h1, h2, h3, h4⟩

/-- C10: a report that exists, is non-empty and parses to a JSON value with no
Python length (a number, boolean or null) does not yield the zero-findings
success result: the `len` call raises, the generic handler runs, and the
ScanResult has `success = false` with a non-empty error message while the
counters stay unchanged. -/
theorem unsized_json_scan_error (repo_path repo_url temp_dir : String)
    (rc : Int) (v : Json) (st : ScannerState) (h : pyLen v = none) :
    (scan_repository repo_path repo_url temp_dir (.completed rc (.parsed v)) st).result.success
        = false ∧
    (∃ m, (scan_repository repo_path repo_url temp_dir (.completed rc (.parsed v)) st).result.error
        = some m ∧ m ≠ "") ∧
    (scan_repository repo_path repo_url temp_dir (.completed rc (.parsed v)) st).result.findings_count
        = 0 ∧
    (scan_repository repo_path repo_url temp_dir (.completed rc (.parsed v)) st).state
        = st := by
  cases v with
  | null => exact ⟨rfl, ⟨_, rfl, error_msg_ne_empty _ _⟩, rfl, rfl⟩
  | bool b => exact ⟨rfl, ⟨_, rfl, error_msg_ne_empty _ _⟩, rfl, rfl⟩
  | num k => exact ⟨rfl, ⟨_, rfl, error_msg_ne_empty _ _⟩, rfl, rfl⟩
  | str s => simp [pyLen] at h
  | arr elems => simp [pyLen] at h
  | obj fields => simp [pyLen] at h

theorem unsized_json_scan_error_witness :
    pyLen (Json.num 7) = none ∧
    (scan_repository "/tmp/ws/AlgoHL" "https://github.com/AlwaysUbaid/AlgoHL" "/tmp/ws"
        (.completed 0 (.parsed (Json.num 7))) initState).result.success = false ∧
    (scan_repository "/tmp/ws/AlgoHL" "https://github.com/AlwaysUbaid/AlgoHL" "/tmp/ws"
        (.completed 0 (.parsed (Json.num 7))) initState).state = initState := by
  have h := unsized_json_scan_error "/tmp/ws/AlgoHL"
    "https://github.com/AlwaysUbaid/AlgoHL" "/tmp/ws" 0 (Json.num 7) initState rfl
  exact ⟨rfl, h.1, h.2.2.2⟩

/-- C8 (counterexample): at a concrete input, the argument list the code hands
the secret-scanner binary is not the one the claim states
(`scan <target> --report-path <file> --report-format json`): the subcommand
is `git`, `--no-banner` is passed, and the target is the final argument. -/
theorem scan_args_ne_spec :
    (scan_repository "/tmp/ws/repo" "https://github.com/AlwaysUbaid/AlgoHL" "/tmp/ws"
        (.completed 0 .absent) initState).cmd.argv.drop 1
      ≠ specScanArgs "/tmp/ws/repo" "/tmp/ws/repo_report.json" := by decide

/-- C8 (amended): the orchestrator shells out to the version-control client
with arguments `clone --depth 1 <url> <dest>` under a 300-unit timeout, and to
the secret-scanner with subcommand and arguments
`git --report-path <file> --report-format json --no-banner <target>` under a
600-unit timeout, whatever the outcome of either call. -/
theorem shell_commands (repo_url repo_url' repo_path temp_dir : String)
    (co : CloneOutcome) (so : ScanOutcome) (st : ScannerState) :
    (clone_repository repo_url temp_dir co).cmd
      = ⟨["git", "clone", "--depth", "1", repo_url,
          pathJoin temp_dir (lastSegment repo_url)], 300⟩ ∧
    (scan_repository repo_path repo_url' temp_dir so st).cmd
      = ⟨["gitleaks", "git", "--report-path",
          pathJoin temp_dir (lastSegment repo_path ++ "_report.json"),
          "--report-format", "json", "--no-banner", repo_path], 600⟩ := by
  constructor
  · cases co with
    | completed rc s => by_cases hrc : rc = 0 <;> simp [clone_repository, hrc]
    | timeout => rfl
    | exc m => rfl
  · cases so with
    | completed rc report =>
      cases report with
      | parsed v => cases v <;> rfl
      | absent => rfl
      | empty => rfl
      | invalid raw => rfl
    | timeout => rfl
    | exc m => rfl

theorem isObj_exists (f : Json) (h : f.isObj = true) : ∃ fields, f = .obj fields := by
  cases f <;> first | exact ⟨_, rfl⟩ | simp [Json.isObj] at h

/-- On a list of dicts the summary loop prints one entry per element and
raises nothing. -/
theorem printFindings_all_obj (fs : List Json) (h : ∀ f ∈ fs, f.isObj = true) :
    printFindings fs = (fs.map fmtEntry, none) := by
  induction fs with
  | nil => rfl
  | cons f fs ih =>
    obtain ⟨fields, rfl⟩ := isObj_exists f (h f (by simp))
    simp only [printFindings, formatFinding, List.map]
    rw [ih (fun g hg => h g (by simp [hg]))]
    simp [fmtEntry, formatFinding]

theorem isEntry_fmtEntry (f : Json) (h : f.isObj = true) :
    (fmtEntry f).isEntry = true := by
  obtain ⟨fields, rfl⟩ := isObj_exists f h
  rfl

theorem isClean_eq_false_of_isEntry (l : OutLine) (h : l.isEntry = true) :
    l.isClean = false := by
  cases l <;> simp_all [OutLine.isEntry, OutLine.isClean]

theorem isMore_eq_false_of_isEntry (l : OutLine) (h : l.isEntry = true) :
    l.isMore = false := by
  cases l <;> simp_all [OutLine.isEntry, OutLine.isMore]

/-- The console lines the post-scan code prints when the parsed report is a
list of dicts: the clean line when it is empty, otherwise the alarm header
and one entry for each of the first five findings, plus the remainder line
exactly when more than five exist. -/
theorem scanCompletedBody_output_objs (repo_name repo_url repo_path report_file : String)
    (fs : List Json) (st : ScannerState) (h : ∀ f ∈ fs, f.isObj = true) :
    (scanCompletedBody repo_name repo_url repo_path report_file (.arr fs) fs.length st).2.2
      = if 0 < fs.length then
          [OutLine.secretsFound repo_name fs.length, OutLine.reportPath report_file,
            OutLine.summaryHeader] ++ (fs.take 5).map fmtEntry ++
            (if 5 < fs.length then [OutLine.moreFindings (fs.length - 5)] else [])
        else [OutLine.cleanRepo repo_name] := by
  unfold scanCompletedBody
  by_cases h0 : 0 < fs.length
  · simp only [if_pos h0]
    have hslice : pySlice5 (.arr fs) = .ok (fs.take 5) := rfl
    simp only [hslice]
    have hp : printFindings (fs.take 5) = ((fs.take 5).map fmtEntry, none) :=
      printFindings_all_obj _ (fun f hf => h f (List.mem_of_mem_take hf))
    rw [hp]
  · simp only [if_neg h0]

/-- C6: for a successfully parsed report that is a list of N finding dicts,
the console output of `scan_repository` has the clean confirmation (and no
entries, no remainder line) when N = 0; when N > 0 it has no clean line, its
entry lines are exactly those of the first five findings in order — so
exactly N entries when N ≤ 5 with no remainder line, and exactly 5 entries
with a single remainder line counting N − 5 when N > 5. -/
theorem findings_summary_lines (repo_path repo_url temp_dir : String) (rc : Int)
    (fs : List Json) (st : ScannerState) (h : ∀ f ∈ fs, f.isObj = true) :
    (fs.length = 0 →
      (scanOutput repo_path repo_url temp_dir (.completed rc (.parsed (.arr fs))) st).countP
          OutLine.isClean = 1 ∧
      (scanOutput repo_path repo_url temp_dir (.completed rc (.parsed (.arr fs))) st).countP
          OutLine.isEntry = 0 ∧
      (scanOutput repo_path repo_url temp_dir (.completed rc (.parsed (.arr fs))) st).countP
          OutLine.isMore = 0) ∧
    (0 < fs.length →
      (scanOutput repo_path repo_url temp_dir (.completed rc (.parsed (.arr fs))) st).countP
          OutLine.isClean = 0 ∧
      (scanOutput repo_path repo_url temp_dir (.completed rc (.parsed (.arr fs))) st).filter
          OutLine.isEntry = (fs.take 5).map fmtEntry ∧
      (scanOutput repo_path repo_url temp_dir (.completed rc (.parsed (.arr fs))) st).countP
          OutLine.isEntry = min 5 fs.length ∧
      (fs.length ≤ 5 →
        (scanOutput repo_path repo_url temp_dir (.completed rc (.parsed (.arr fs))) st).countP
          OutLine.isMore = 0) ∧
      (5 < fs.length →
        (scanOutput repo_path repo_url temp_dir (.completed rc (.parsed (.arr fs))) st).filter
          OutLine.isMore = [OutLine.moreFindings (fs.length - 5)])) := by
  have hout : scanOutput repo_path repo_url temp_dir (.completed rc (.parsed (.arr fs))) st
      = OutLine.scanning (lastSegment repo_path) ::
        (scanCompletedBody (lastSegment repo_path) repo_url repo_path
          (pathJoin temp_dir (lastSegment repo_path ++ "_report.json"))
          (.arr fs) fs.length st).2.2 := rfl
  rw [hout, scanCompletedBody_output_objs _ _ _ _ _ _ h]
  constructor
  · intro hN
    have h0 : ¬ 0 < fs.length := by omega
    simp [if_neg h0, List.countP_cons, OutLine.isClean, OutLine.isEntry, OutLine.isMore]
  · intro h0
    simp only [if_pos h0]
    have hentry : ∀ l ∈ (fs.take 5).map fmtEntry, OutLine.isEntry l = true := by
      intro l hl
      obtain ⟨f, hf, rfl⟩ := List.mem_map.mp hl
      exact isEntry_fmtEntry f (h f (List.mem_of_mem_take hf))
    have hA : ((fs.take 5).map fmtEntry).countP OutLine.isClean = 0 :=
      List.countP_eq_zero.mpr fun l hl => by
        simp [isClean_eq_false_of_isEntry l (hentry l hl)]
    have hB : ((fs.take 5).map fmtEntry).countP OutLine.isMore = 0 :=
      List.countP_eq_zero.mpr fun l hl => by
        simp [isMore_eq_false_of_isEntry l (hentry l hl)]
    have hC : ((fs.take 5).map fmtEntry).filter OutLine.isEntry
        = (fs.take 5).map fmtEntry := List.filter_eq_self.mpr hentry
    have hCm : ∀ l ∈ (fs.take 5).map fmtEntry, OutLine.isMore l = false :=
      fun l hl => isMore_eq_false_of_isEntry l (hentry l hl)
    have hD : ((fs.take 5).map fmtEntry).countP OutLine.isEntry
        = min 5 fs.length := by
      rw [List.countP_eq_length_filter, hC, List.length_map, List.length_take]
    have hFm : ((fs.take 5).map fmtEntry).filter OutLine.isMore = [] :=
      List.filter_eq_nil_iff.mpr (fun l hl => by simp [hCm l hl])
    by_cases h5 : 5 < fs.length
    · rw [if_pos h5]
      refine ⟨?_, ?_, ?_, fun hle => absurd h5 (by omega), fun _ => ?_⟩
      · simp only [List.countP_cons, List.countP_append, hA]
        simp [OutLine.isClean]
      · simp only [List.filter_cons, List.filter_append, hC]
        simp [OutLine.isEntry]
      · simp only [List.countP_cons, List.countP_append, hD]
        simp [OutLine.isEntry]
      · simp only [List.filter_cons, List.filter_append, hFm]
        simp [OutLine.isMore]
    · rw [if_neg h5]
      refine ⟨?_, ?_, ?_, fun _ => ?_, fun hgt => absurd hgt h5⟩
      · simp only [List.countP_cons, List.countP_append, hA]
        simp [OutLine.isClean]
      · simp only [List.filter_cons, List.filter_append, hC]
        simp [OutLine.isEntry]
      · simp only [List.countP_cons, List.countP_append, hD]
        simp [OutLine.isEntry]
      · simp only [List.countP_cons, List.countP_append, hB]
        simp [OutLine.isMore]

theorem findings_summary_lines_witness :
    (∀ f ∈ ([.obj [("ruleID", .str "aws-access-key")], .obj [], .obj [], .obj [],
        .obj [], .obj [], .obj []] : List Json), f.isObj = true) ∧
    (scanOutput "/tmp/ws/AlgoHL" "https://github.com/AlwaysUbaid/AlgoHL" "/tmp/ws"
        (.completed 0 (.parsed (.arr [.obj [("ruleID", .str "aws-access-key")],
          .obj [], .obj [], .obj [], .obj [], .obj [], .obj []]))) initState).countP
      OutLine.isEntry
      = min 5 ([.obj [("ruleID", Json.str "aws-access-key")], .obj [], .obj [], .obj [],
          .obj [], .obj [], .obj []] : List Json).length ∧
    (scanOutput "/tmp/ws/AlgoHL" "https://github.com/AlwaysUbaid/AlgoHL" "/tmp/ws"
        (.completed 0 (.parsed (.arr [.obj [("ruleID", .str "aws-access-key")],
          .obj [], .obj [], .obj [], .obj [], .obj [], .obj []]))) initState).filter
      OutLine.isMore
      = [OutLine.moreFindings (([.obj [("ruleID", Json.str "aws-access-key")], .obj [],
          .obj [], .obj [], .obj [], .obj [], .obj []] : List Json).length - 5)] := by
  have h := findings_summary_lines "/tmp/ws/AlgoHL"
    "https://github.com/AlwaysUbaid/AlgoHL" "/tmp/ws" 0
    [.obj [("ruleID", .str "aws-access-key")], .obj [], .obj [], .obj [], .obj [],
      .obj [], .obj []] initState (by decide)
  exact ⟨by decide, (h.2 (by decide)).2.2.1, (h.2 (by decide)).2.2.2.2 (by decide)⟩

end GitleaksScan
